import Mathlib

/-!
Verification development for the Agent Builder frontend engine
(`src/unnamed/part_000`).  The JavaScript state object and the functions
`toggleTool`, `setParam`, `toggleMultiParam`, `handleShowIf`,
`renderParamField`, `renderDeploy`, `confirmChatParams`, `sendChat` and
`goToStep` are embedded as pure Lean functions over an explicit state
record.  JS objects used as ordered string-keyed maps are embedded as
association lists (insertion order preserved, unique keys); `obj[k] = v`
updates in place or appends, `delete obj[k]` removes the key.
-/

/-- A JS value stored in an override map or a field default:
either a string or an array of strings. -/
inductive Value where
  | scalar (s : String)
  | list (xs : List String)
deriving DecidableEq, Repr

/-- One declared parameter field of a tool schema section
(`deploy_params` / `runtime_params` entries of a catalog tool detail).
`default := none` models a JS `undefined` default. -/
structure ParamField where
  label : String
  type : String
  default : Option Value
  required : Bool
  options : List String
  placeholder : String
  description : String
  show_if : Option (String × String)
deriving DecidableEq, Repr

/-- A cached tool detail: the two schema sections, as ordered maps. -/
structure ToolDetail where
  name : String
  deploy_params : List (String × ParamField)
  runtime_params : List (String × ParamField)
deriving DecidableEq, Repr

/-- One entry of `state.selected`: the per-tool override maps. -/
structure SelEntry where
  deploy_params : List (String × Value)
  runtime_params : List (String × Value)
deriving DecidableEq, Repr

/-- A prompt parameter definition (`state.promptParams` element). -/
structure PromptParam where
  key : String
  label : String
  type : String
  options : List String
  default : String
  required : Bool
  description : String
  placeholder : String
deriving DecidableEq, Repr

/-- A chat message (`state.chatHistory` element). -/
structure Message where
  role : String
  content : String
  toolCalls : List String
deriving DecidableEq, Repr

/-- The deployed-agent record returned by a successful deploy. -/
structure DeployedAgent where
  name : String
  id : String
  version : Nat
  prompt_params : List PromptParam
deriving DecidableEq, Repr

/-- The mutable frontend state (`const state = {...}`), restricted to the
fields the configuration/wizard engine reads and writes. -/
structure AppState where
  step : Nat
  toolDetails : List (String × ToolDetail)
  selected : List (String × SelEntry)
  agentName : String
  agentModel : String
  instructions : String
  deployedAgent : Option DeployedAgent
  chatHistory : List Message
  previousResponseId : Option String
  promptParams : List PromptParam
  paramValues : List (String × String)
  chatParamsConfirmed : Bool
deriving DecidableEq, Repr

/-- Lookup in a JS-object-as-association-list (`obj[k]`, `undefined = none`). -/
def lookupA {α : Type} (m : List (String × α)) (k : String) : Option α :=
  match m with
  | [] => none
  | (k', v) :: rest => if k' = k then some v else lookupA rest k

/-- `obj[k] = v`: update in place if the key exists, else append. -/
def setKey {α : Type} (m : List (String × α)) (k : String) (v : α) :
    List (String × α) :=
  match m with
  | [] => [(k, v)]
  | (k', v') :: rest =>
    if k' = k then (k, v) :: rest else (k', v') :: setKey rest k v

/-- `delete obj[k]`. -/
def removeKey {α : Type} (m : List (String × α)) (k : String) :
    List (String × α) :=
  match m with
  | [] => []
  | (k', v) :: rest =>
    if k' = k then removeKey rest k else (k', v) :: removeKey rest k

/-- JS `a || b` on an optional string `a` (absent and `""` are falsy). -/
def jsOrStr (a : Option String) (b : String) : String :=
  match a with
  | some s => if s = "" then b else s
  | none => b

/-- JS `String.prototype.trim`: strip whitespace from both ends. -/
def jsTrim (s : String) : String :=
  String.mk (((s.data.dropWhile Char.isWhitespace).reverse.dropWhile
    Char.isWhitespace).reverse)

theorem lookupA_setKey_self {α : Type} (m : List (String × α)) (k : String)
    (v : α) : lookupA (setKey m k v) k = some v := by
  induction m with
  | nil => simp [setKey, lookupA]
  | cons hd tl ih =>
    by_cases h : hd.1 = k
    · simp [setKey, h, lookupA]
    · simp [setKey, h, lookupA, ih]

theorem lookupA_setKey_ne {α : Type} (m : List (String × α)) (k k' : String)
    (v : α) (h : k ≠ k') : lookupA (setKey m k v) k' = lookupA m k' := by
  induction m with
  | nil => simp [setKey, lookupA, h]
  | cons hd tl ih =>
    by_cases hh : hd.1 = k
    · simp [setKey, hh, lookupA, h]
    · simp [setKey, hh, lookupA, ih]

theorem lookupA_append {α : Type} (m₁ m₂ : List (String × α)) (k : String) :
    lookupA (m₁ ++ m₂) k = (lookupA m₁ k).or (lookupA m₂ k) := by
  induction m₁ with
  | nil => simp [lookupA]
  | cons hd tl ih =>
    by_cases h : hd.1 = k
    · simp [lookupA, h]
    · simp [lookupA, h, ih]

theorem lookupA_removeKey_self {α : Type} (m : List (String × α))
    (k : String) : lookupA (removeKey m k) k = none := by
  induction m with
  | nil => simp [removeKey, lookupA]
  | cons hd tl ih =>
    by_cases h : hd.1 = k
    · simp [removeKey, h, ih]
    · simp [removeKey, h, lookupA, ih]

theorem lookupA_eq_none_of_not_mem {α : Type} (m : List (String × α))
    (k : String) (h : k ∉ m.map Prod.fst) : lookupA m k = none := by
  induction m with
  | nil => simp [lookupA]
  | cons hd tl ih =>
    simp only [List.map_cons, List.mem_cons] at h
    push_neg at h
    have h1 : ¬hd.1 = k := fun hh => h.1 hh.symm
    simp [lookupA, h1, ih h.2]

/-! ## Section plumbing -/

/-- Which half of a tool schema a key lives in (`'deploy_params'` /
`'runtime_params'` in the JS string arguments). -/
inductive ParamSection where
  | deploy
  | runtime
deriving DecidableEq, Repr

/-- `detail[section]` on a cached tool detail. -/
def detailSec (d : ToolDetail) (sec : ParamSection) :
    List (String × ParamField) :=
  match sec with
  | ParamSection.deploy => d.deploy_params
  | ParamSection.runtime => d.runtime_params

/-- `state.selected[toolId][section]` on a selection entry. -/
def getSec (e : SelEntry) (sec : ParamSection) : List (String × Value) :=
  match sec with
  | ParamSection.deploy => e.deploy_params
  | ParamSection.runtime => e.runtime_params

/-- Write one section map of a selection entry. -/
def setSec (e : SelEntry) (sec : ParamSection) (m : List (String × Value)) :
    SelEntry :=
  match sec with
  | ParamSection.deploy => { e with deploy_params := m }
  | ParamSection.runtime => { e with runtime_params := m }

/-- The fresh entry `{ deploy_params: {}, runtime_params: {} }`. -/
def SelEntry.empty : SelEntry := ⟨[], []⟩

/-! ## Selection state operations -/

/-- `toggleTool(id)`: delete the selection entry if present, else create a
fresh empty one (appended, as JS property creation does). -/
def toggleTool (st : AppState) (id : String) : AppState :=
  match lookupA st.selected id with
  | some _ => { st with selected := removeKey st.selected id }
  | none => { st with selected := st.selected ++ [(id, SelEntry.empty)] }

/-- The shared store step of `setParam` / `toggleMultiParam`: ensure a
selection entry exists for the tool, then write
`state.selected[toolId][section][key] = value`. -/
def writeParam (st : AppState) (toolId : String) (sec : ParamSection)
    (key : String) (v : Value) : AppState :=
  let entry := (lookupA st.selected toolId).getD SelEntry.empty
  let entry' := setSec entry sec (setKey (getSec entry sec) key v)
  match lookupA st.selected toolId with
  | some _ => { st with selected := setKey st.selected toolId entry' }
  | none => { st with selected := st.selected ++ [(toolId, entry')] }

/-- `setParam(toolId, section, key, value)`: unconditional store (the
trailing `handleShowIf()` call only re-renders, it does not change state). -/
def setParam (st : AppState) (toolId : String) (sec : ParamSection)
    (key : String) (v : Value) : AppState :=
  writeParam st toolId sec key v

/-- `toggleMultiParam(toolId, section, key, option)`: read the *stored*
value (an absent or non-array value is treated as `[]`), remove the option
if present else append it, and store the result. -/
def toggleMultiParam (st : AppState) (toolId : String) (sec : ParamSection)
    (key : String) (opt : String) : AppState :=
  let entry := (lookupA st.selected toolId).getD SelEntry.empty
  let arr : List String :=
    match lookupA (getSec entry sec) key with
    | some (Value.list xs) => xs
    | _ => []
  let arr' := if arr.contains opt then arr.filter (fun x => x ≠ opt)
              else arr ++ [opt]
  writeParam st toolId sec key (Value.list arr')

/-! ## Resolution and visibility -/

/-- The value shown by `renderParamField`:
`stored !== undefined ? stored : (param.default ?? '')`, where a missing
tool entry, a missing stored key, or an undeclared field all fall through. -/
def renderValue (st : AppState) (toolId : String) (sec : ParamSection)
    (key : String) : Value :=
  match (lookupA st.selected toolId).bind
      (fun e => lookupA (getSec e sec) key) with
  | some v => v
  | none =>
    match (lookupA st.toolDetails toolId).bind
        (fun d => lookupA (detailSec d sec) key) with
    | some f => f.default.getD (Value.scalar "")
    | none => Value.scalar ""

/-- The multi-select chip selection derived from the rendered value
(`Array.isArray(value) ? value : []`). -/
def resolvedList (st : AppState) (toolId : String) (sec : ParamSection)
    (key : String) : List String :=
  match renderValue st toolId sec key with
  | Value.list xs => xs
  | _ => []

/-- The controller value read by `handleShowIf`:
`state.selected[toolId]?.[section]?.[condKey]
  ?? state.toolDetails[toolId]?.[section]?.[condKey]?.default ?? ''`. -/
def resolveCond (st : AppState) (toolId : String) (sec : ParamSection)
    (condKey : String) : Value :=
  match (lookupA st.selected toolId).bind
      (fun e => lookupA (getSec e sec) condKey) with
  | some v => v
  | none =>
    match ((lookupA st.toolDetails toolId).bind
        (fun d => lookupA (detailSec d sec) condKey)).bind
        (fun f => f.default) with
    | some v => v
    | none => Value.scalar ""

/-- Visibility of a rendered field: no `show_if` means always visible
(no data attribute is emitted); with `show_if = (k, v)` the element is
displayed exactly when `currentVal === condVal` in `handleShowIf`. -/
def isVisible (st : AppState) (toolId : String) (sec : ParamSection)
    (f : ParamField) : Bool :=
  match f.show_if with
  | none => true
  | some (k, v) =>
    if resolveCond st toolId sec k = Value.scalar v then true else false

/-! ## Wizard navigation -/

/-- `goToStep(n)`.  The two optional arguments model the live contents of
the `agent-name` / `agent-instructions` DOM inputs (`none` when the
element is absent).  For `n === 4` the JS reads
`document.getElementById(...)?.value?.trim() || state.<field>` into the
state and refuses (returning early, with the state writes already done)
when either stored string is falsy. -/
def goToStep (st : AppState) (n : Nat) (domName domInstr : Option String) :
    AppState :=
  if n = 4 then
    let name := jsOrStr (domName.map jsTrim) st.agentName
    let instr := jsOrStr (domInstr.map jsTrim) st.instructions
    let st' := { st with agentName := name, instructions := instr }
    if name = "" ∨ instr = "" then st' else { st' with step := 4 }
  else
    { st with step := n }

/-! ## Deploy payload assembly (`renderDeploy`) -/

/-- One element of the payload's `tools` array. -/
structure ToolPayload where
  tool_id : String
  deploy_params : List (String × Value)
  runtime_params : List (String × Value)
deriving DecidableEq, Repr

/-- The body POSTed to `/api/agents`. -/
structure DeployPayload where
  name : String
  model : String
  instructions : String
  tools : List ToolPayload
  prompt_params : List PromptParam
deriving DecidableEq, Repr

/-- One iteration of the default-merging loop in `renderDeploy`:
`if (filled[k] === undefined && v.default !== undefined) filled[k] = v.default`. -/
def fillStep (ov : List (String × Value)) (kf : String × ParamField) :
    List (String × Value) :=
  match lookupA ov kf.1, kf.2.default with
  | none, some d => setKey ov kf.1 d
  | _, _ => ov

/-- Merge catalog defaults into an override map: for each schema entry in
declaration order, fill the key when it is unset and the default is
defined. -/
def fillDefaults (ov : List (String × Value))
    (schema : List (String × ParamField)) : List (String × Value) :=
  schema.foldl fillStep ov

/-- The `tools` entry built for one `[tool_id, params]` pair of
`state.selected`; when the detail is not cached the overrides pass
through unfilled. -/
def toolPayload (st : AppState) (p : String × SelEntry) : ToolPayload :=
  match lookupA st.toolDetails p.1 with
  | none => ⟨p.1, p.2.deploy_params, p.2.runtime_params⟩
  | some detail =>
    ⟨p.1, fillDefaults p.2.deploy_params detail.deploy_params,
      fillDefaults p.2.runtime_params detail.runtime_params⟩

/-- The full deploy payload assembled at the top of `renderDeploy`. -/
def buildDeployPayload (st : AppState) : DeployPayload :=
  { name := jsTrim st.agentName
    model := st.agentModel
    instructions := jsTrim st.instructions
    tools := st.selected.map (toolPayload st)
    prompt_params := st.promptParams.filter (fun p => ¬jsTrim p.key = "") }

/-- The state effect of `renderDeploy`'s response handling: success stores
the returned agent, clears the chat thread and moves to step 5; the
failure branch only rewrites the DOM and leaves the state untouched. -/
def renderDeployResult (st : AppState)
    (result : Except String DeployedAgent) : AppState :=
  match result with
  | Except.ok agent =>
    { st with deployedAgent := some agent, chatHistory := [],
              previousResponseId := none, step := 5 }
  | Except.error _ => st

/-! ## Chat parameter session -/

/-- `getActivePromptParams()`: the builder's own definitions when any
exist, else those of the deployed agent. -/
def getActivePromptParams (st : AppState) : List PromptParam :=
  if 0 < st.promptParams.length then st.promptParams
  else
    match st.deployedAgent with
    | some a => a.prompt_params
    | none => []

/-- The display value `state.paramValues[p.key] || p.default || ''` used
by the context-message loop of `confirmChatParams`. -/
def chatResolvedVal (st : AppState) (p : PromptParam) : String :=
  jsOrStr (lookupA st.paramValues p.key) (jsOrStr (some p.default) "")

/-- One summary line `**label:** value` of the context message. -/
def ctxLine (st : AppState) (p : PromptParam) : String :=
  "**" ++ jsOrStr (some p.label) p.key ++ ":** " ++ chatResolvedVal st p

/-- The non-empty summary lines of the context message. -/
def ctxLines (st : AppState) (params : List PromptParam) : List String :=
  params.filterMap (fun p =>
    if chatResolvedVal st p = "" then none else some (ctxLine st p))

/-- The context message pushed by a successful `confirmChatParams`. -/
def ctxMessage (st : AppState) (params : List PromptParam) : Message :=
  ⟨"context",
    "Agent parameters set:\n" ++ String.intercalate "\n" (ctxLines st params),
    []⟩

/-- `confirmChatParams()`: refuse (alert and return, state untouched) when
some required prompt param's stored value is absent or blank after
trimming; otherwise set `chatParamsConfirmed` and push the context message
when at least one summary line is non-empty. -/
def confirmChatParams (st : AppState) : AppState :=
  let params := getActivePromptParams st
  if params.any
      (fun p => p.required && jsTrim ((lookupA st.paramValues p.key).getD "") = "")
  then st
  else
    let st1 := { st with chatParamsConfirmed := true }
    if (ctxLines st params).isEmpty then st1
    else { st1 with chatHistory := st1.chatHistory ++ [ctxMessage st params] }

/-! ## Chat turn submission (`sendChat`) -/

/-- The body POSTed to `/api/chat` for one turn. -/
structure ChatRequest where
  agent_name : String
  message : String
  previous_response_id : Option String
  param_values : List (String × String)
deriving DecidableEq, Repr

/-- The fields of a successful `/api/chat` response that `sendChat` reads. -/
structure ChatResponse where
  response_id : String
  text : String
  tool_calls : List String
deriving DecidableEq, Repr

/-- The outbound request `sendChat` issues from the current state. -/
def chatRequest (st : AppState) (message : String) : ChatRequest :=
  { agent_name := jsOrStr (st.deployedAgent.map DeployedAgent.name) st.agentName
    message := message
    previous_response_id := st.previousResponseId
    param_values := st.paramValues }

/-- The state effect of one `sendChat` call whose boundary call returned
`result`: push the user message; on success record the returned
`response_id` and push the assistant message; on failure push an
assistant-shaped error message and leave the token unchanged. -/
def sendChatStep (st : AppState) (message : String)
    (result : Except String ChatResponse) : AppState :=
  let st1 :=
    { st with chatHistory := st.chatHistory ++ [Message.mk "user" message []] }
  match result with
  | Except.ok data =>
    { st1 with previousResponseId := some data.response_id,
               chatHistory := st1.chatHistory ++
                 [Message.mk "assistant" data.text data.tool_calls] }
  | Except.error e =>
    { st1 with chatHistory := st1.chatHistory ++
                 [Message.mk "assistant" ("Error: " ++ e) []] }

/-- The sequence of outbound requests produced by running the given chat
turns (message plus the successful response the boundary returns) in
order. -/
def chatRequests (st : AppState) :
    List (String × ChatResponse) → List ChatRequest
  | [] => []
  | (m, r) :: rest =>
    chatRequest st m :: chatRequests (sendChatStep st m (Except.ok r)) rest

/-! ## Shared fixture states -/

/-- A fresh wizard state, as initialised by the `state` literal. -/
def baseState : AppState :=
  { step := 1, toolDetails := [], selected := [], agentName := ""
    agentModel := "gpt-4.1", instructions := "", deployedAgent := none
    chatHistory := [], previousResponseId := none, promptParams := []
    paramValues := [], chatParamsConfirmed := false }

/-- Build a schema field with empty placeholder/description. -/
def mkField (label ftype : String) (dflt : Option Value) (req : Bool)
    (options : List String) (showCond : Option (String × String)) :
    ParamField :=
  ⟨label, ftype, dflt, req, options, "", "", showCond⟩

/-! ## Helper lemmas about the store operations -/

theorem getSec_setSec (e : SelEntry) (sec : ParamSection)
    (m : List (String × Value)) : getSec (setSec e sec m) sec = m := by
  cases sec <;> rfl

theorem lookupA_writeParam_self (st : AppState) (toolId : String)
    (sec : ParamSection) (key : String) (v : Value) :
    lookupA (writeParam st toolId sec key v).selected toolId
      = some (setSec ((lookupA st.selected toolId).getD SelEntry.empty) sec
          (setKey (getSec ((lookupA st.selected toolId).getD SelEntry.empty)
            sec) key v)) := by
  unfold writeParam
  cases hlk : lookupA st.selected toolId with
  | none => simp [hlk, lookupA_append, lookupA]
  | some e => simp [hlk, lookupA_setKey_self]

theorem lookupA_writeParam_other (st : AppState) (toolId : String)
    (sec : ParamSection) (key : String) (v : Value) (other : String)
    (h : other ≠ toolId) :
    lookupA (writeParam st toolId sec key v).selected other
      = lookupA st.selected other := by
  unfold writeParam
  cases hlk : lookupA st.selected toolId with
  | none =>
    simp only [hlk]
    rw [lookupA_append]
    have hne : ¬toolId = other := fun hh => h hh.symm
    simp [lookupA, hne, Option.or_none]
  | some e =>
    simp only [hlk]
    exact lookupA_setKey_ne _ _ _ _ (fun hh => h hh.symm)

/-! ## C10 — tool deactivation drops overrides -/

/-- C10: deactivating an active tool deletes its entire selection entry,
including every stored deploy and runtime override; re-activating it
creates a fresh entry with both override maps empty, so the old overrides
are not restored. -/
theorem c10_toggle_off_on (st : AppState) (id : String) (entry : SelEntry)
    (h : lookupA st.selected id = some entry) :
    lookupA (toggleTool st id).selected id = none ∧
    lookupA (toggleTool (toggleTool st id) id).selected id
      = some SelEntry.empty := by
  have e1 : toggleTool st id = { st with selected := removeKey st.selected id } := by
    simp [toggleTool, h]
  have h1 : lookupA (removeKey st.selected id) id = none :=
    lookupA_removeKey_self _ _
  constructor
  · rw [e1]; exact h1
  · rw [e1]
    have e2 : toggleTool { st with selected := removeKey st.selected id } id
        = { st with
            selected := removeKey st.selected id ++ [(id, SelEntry.empty)] } := by
      simp [toggleTool, h1]
    rw [e2]
    simp [lookupA_append, h1, lookupA]

/-- C10 witness: a tool with one stored deploy override, toggled off and
back on. -/
def c10w : AppState :=
  { baseState with selected := [("t", ⟨[("x", Value.scalar "1")], []⟩)] }

theorem c10_toggle_off_on_witness :
    lookupA (toggleTool c10w "t").selected "t" = none ∧
    lookupA (toggleTool (toggleTool c10w "t") "t").selected "t"
      = some SelEntry.empty :=
  c10_toggle_off_on c10w "t" ⟨[("x", Value.scalar "1")], []⟩ (by decide)

/-! ## C4 — setParam stores unconditionally -/

/-- C4 fixture: tool `t` is NOT active (no selection entry) and its cached
schema declares only the deploy key `k`. -/
def c4x : AppState :=
  { baseState with
    toolDetails := [("t", ⟨"Tool T",
      [("k", mkField "K" "string" (some (Value.scalar "")) false [] none)],
      []⟩)] }

/-- C4 counterexample: `setParam` on an inactive tool with an undeclared
key does not fail and does not leave the Selection unchanged — it creates
a fresh entry and stores the unknown key. -/
theorem c4_counterexample :
    lookupA c4x.selected "t" = none ∧
    (lookupA c4x.toolDetails "t").map
      (fun d => d.deploy_params.map Prod.fst) = some ["k"] ∧
    (setParam c4x "t" ParamSection.deploy "zzz" (Value.scalar "v")).selected
      = [("t", ⟨[("zzz", Value.scalar "v")], []⟩)] := by
  decide

/-- C4 amended: `setParam(toolId, section, key, value)` never fails and
performs no schema check: it (silently) creates an empty selection entry
when the tool is inactive, then stores the override unconditionally —
declared or not — leaving every other tool's entry and the cached schemas
unchanged. -/
theorem c4_setParam_total (st : AppState) (toolId : String)
    (sec : ParamSection) (key : String) (v : Value) :
    lookupA (setParam st toolId sec key v).selected toolId
      = some (setSec ((lookupA st.selected toolId).getD SelEntry.empty) sec
          (setKey (getSec ((lookupA st.selected toolId).getD SelEntry.empty)
            sec) key v)) ∧
    (∀ other, other ≠ toolId →
      lookupA (setParam st toolId sec key v).selected other
        = lookupA st.selected other) ∧
    (setParam st toolId sec key v).toolDetails = st.toolDetails := by
  refine ⟨lookupA_writeParam_self st toolId sec key v, ?_, ?_⟩
  · intro other hother
    exact lookupA_writeParam_other st toolId sec key v other hother
  · unfold setParam writeParam
    cases hlk : lookupA st.selected toolId <;> simp [hlk]

/-- C4 amended, witness at a concrete inactive tool and undeclared key. -/
theorem c4_setParam_total_witness :
    lookupA (setParam c4x "t" ParamSection.deploy "zzz"
        (Value.scalar "v")).selected "other" = lookupA c4x.selected "other" :=
  (c4_setParam_total c4x "t" ParamSection.deploy "zzz"
    (Value.scalar "v")).2.1 "other" (by decide)

/-! ## C3 — no validation guards ConfigureParams → ConfigureAgent -/

/-- C3 fixture: one active tool whose only deploy field is required and
has no default, so it resolves to the empty scalar. -/
def c3x : AppState :=
  { baseState with
    step := 2
    toolDetails := [("t", ⟨"Tool T",
      [("k", mkField "K" "string" none true [] none)], []⟩)]
    selected := [("t", SelEntry.empty)] }

/-- C3 counterexample: a required field of an active tool resolves empty,
yet `goToStep(3)` is not refused — the step advances to ConfigureAgent. -/
theorem c3_counterexample :
    c3x.step = 2 ∧
    ((lookupA c3x.toolDetails "t").bind
      (fun d => lookupA d.deploy_params "k")).map ParamField.required
        = some true ∧
    renderValue c3x "t" ParamSection.deploy "k" = Value.scalar "" ∧
    (goToStep c3x 3 none none).step = 3 := by
  decide

/-- C3 amended: the ConfigureParams → ConfigureAgent transition is never
refused: `goToStep(3)` unconditionally sets the step and changes nothing
else; no required-field validation is performed on this transition. -/
theorem c3_goToStep3_unconditional (st : AppState)
    (domName domInstr : Option String) :
    goToStep st 3 domName domInstr = { st with step := 3 } := by
  simp [goToStep]

/-! ## C9 — the ConfigureAgent → Deploying gate and whitespace names -/

/-- C9 fixture: the stored agent name is whitespace-only (enterable via
the name input's change handler); instructions are non-blank. -/
def c9x : AppState :=
  { baseState with
    step := 3
    agentName := "   "
    instructions := "You are helpful" }

/-- C9: evaluation at the failing input.  The entered name is blank after
trimming, yet `goToStep(4)` permits the transition: the trimmed DOM value
`""` is falsy, so `|| state.agentName` falls back to the untrimmed stored
string `"   "`, which is truthy and passes the `!state.agentName` check —
contradicting the trim-based gating the same file applies to the Deploy
button (`deployBtn.disabled = !nameEl.value.trim() || ...`). -/
theorem c9_whitespace_name_permits :
    jsTrim "   " = "" ∧
    (goToStep c9x 4 (some "   ") (some "You are helpful")).step = 4 := by
  decide

/-! ## C2 — multi-select toggling ignores the default -/

/-- C2 fixture: a multi-select deploy field with default `["a","b"]` and
no stored override. -/
def c2x : AppState :=
  { baseState with
    step := 2
    toolDetails := [("t", ⟨"Tool T",
      [("ops", mkField "Operations" "multi_select"
        (some (Value.list ["a", "b"])) true ["a", "b"] none)], []⟩)]
    selected := [("t", SelEntry.empty)] }

/-- C2: evaluation at the failing input.  The rendered (resolved)
selection starts as the default `["a","b"]`, but `toggleMultiParam` reads
only the stored override (treating it as `[]` when absent), so the first
toggle of `"a"` stores `["a"]` — the click on a chip displayed as selected
*adds* it — and the second toggle stores `[]`: the resolved list ends as
`[]`, not set-equal to the original `["a","b"]`. -/
theorem c2_double_toggle_not_idempotent :
    resolvedList c2x "t" ParamSection.deploy "ops" = ["a", "b"] ∧
    resolvedList (toggleMultiParam c2x "t" ParamSection.deploy "ops" "a")
      "t" ParamSection.deploy "ops" = ["a"] ∧
    resolvedList (toggleMultiParam
      (toggleMultiParam c2x "t" ParamSection.deploy "ops" "a")
      "t" ParamSection.deploy "ops" "a") "t" ParamSection.deploy "ops"
        = [] := by
  decide

/-! ## C5 — conditional visibility tracks the live resolved value -/

/-- Storing a scalar for the controlling key makes `handleShowIf` read
exactly that value back. -/
theorem resolveCond_setParam_self (st : AppState) (toolId : String)
    (sec : ParamSection) (k : String) (v : Value) :
    resolveCond (setParam st toolId sec k v) toolId sec k = v := by
  unfold resolveCond
  have h1 := lookupA_writeParam_self st toolId sec k v
  unfold setParam
  rw [h1]
  simp [Option.bind, getSec_setSec, lookupA_setKey_self]

/-- C5: a field without `show_if` is always visible; a field with
`show_if = (k, v)` is visible exactly when the live resolved value of `k`
(stored override if present, else the declared default, else the empty
string) equals the scalar `v`; and the read is live — storing `v` for the
controller via `setParam` immediately renders the dependent field
visible, with no stale cached value. -/
theorem c5_visibility (st : AppState) (toolId : String) (sec : ParamSection)
    (f : ParamField) (k v : String) :
    (f.show_if = none → isVisible st toolId sec f = true) ∧
    (f.show_if = some (k, v) →
      ((isVisible st toolId sec f = true
          ↔ resolveCond st toolId sec k = Value.scalar v) ∧
        isVisible (setParam st toolId sec k (Value.scalar v)) toolId sec f
          = true)) := by
  constructor
  · intro h
    simp [isVisible, h]
  · intro h
    constructor
    · by_cases hc : resolveCond st toolId sec k = Value.scalar v <;>
        simp [isVisible, h, hc]
    · simp [isVisible, h, resolveCond_setParam_self]

/-- C5 witness fixture: the Scenario-A-style schema — `auth` controls the
visibility of `conn` via `show_if = (auth, x)`. -/
def c5f : ParamField :=
  mkField "Conn" "string" (some (Value.scalar "")) false []
    (some ("auth", "x"))

def c5w : AppState :=
  { baseState with
    toolDetails := [("t", ⟨"T",
      [("auth", mkField "Auth" "select" (some (Value.scalar "y")) true
          ["x", "y"] none),
        ("conn", c5f)], []⟩)]
    selected := [("t", SelEntry.empty)] }

theorem c5_visibility_witness :
    (isVisible c5w "t" ParamSection.deploy c5f = true
      ↔ resolveCond c5w "t" ParamSection.deploy "auth" = Value.scalar "x") ∧
    isVisible (setParam c5w "t" ParamSection.deploy "auth"
      (Value.scalar "x")) "t" ParamSection.deploy c5f = true :=
  (c5_visibility c5w "t" ParamSection.deploy c5f "auth" "x").2 rfl

/-! ## C8 — deploy failure leaves the state on Deploying, draft intact -/

/-- C8 fixture: a filled draft sitting at the Deploying step. -/
def c8x : AppState :=
  { baseState with
    step := 4
    agentName := "bot-1"
    instructions := "You are helpful"
    selected := [("t", ⟨[("k", Value.scalar "v")], []⟩)]
    promptParams := [⟨"purpose", "Purpose", "string", [], "", true, "", ""⟩] }

/-- C8 counterexample: after a failed deploy the wizard step is still
Deploying (4), not ConfigureAgent (3): the failure branch renders an error
panel with a "Back to Config" button but does not itself change the step. -/
theorem c8_counterexample :
    c8x.step = 4 ∧
    (renderDeployResult c8x (Except.error "ServiceError: boom")).step = 4 ∧
    ¬(renderDeployResult c8x (Except.error "ServiceError: boom")).step = 3 := by
  decide

/-- C8 amended: a failed deploy leaves the whole state — hence the entire
draft (name, model, instructions, prompt params, Selection with all
overrides) — unchanged, still on the Deploying step; the offered
back-navigation (`goToStep(3)`) then returns to ConfigureAgent with the
draft intact, so the user can resubmit without re-entering any field.  A
successful deploy moves to Chatting holding the returned agent record,
also preserving the draft fields. -/
theorem c8_deploy_failure_frame (st : AppState) (err : String)
    (agent : DeployedAgent) :
    renderDeployResult st (Except.error err) = st ∧
    goToStep (renderDeployResult st (Except.error err)) 3 none none
      = { st with step := 3 } ∧
    (renderDeployResult st (Except.ok agent)).step = 5 ∧
    (renderDeployResult st (Except.ok agent)).deployedAgent = some agent ∧
    (renderDeployResult st (Except.ok agent)).agentName = st.agentName ∧
    (renderDeployResult st (Except.ok agent)).agentModel = st.agentModel ∧
    (renderDeployResult st (Except.ok agent)).instructions
      = st.instructions ∧
    (renderDeployResult st (Except.ok agent)).promptParams
      = st.promptParams ∧
    (renderDeployResult st (Except.ok agent)).selected = st.selected := by
  refine ⟨rfl, ?_, rfl, rfl, rfl, rfl, rfl, rfl, rfl⟩
  simp [renderDeployResult, goToStep]

/-! ## C7 — continuation-token threading across chat turns -/

/-- The token carried by each outbound request: the state's token for the
first turn, then the `response_id` stored from each successful response. -/
theorem chatRequests_tokens (turns : List (String × ChatResponse)) :
    ∀ st : AppState,
      (chatRequests st turns).map ChatRequest.previous_response_id
        = (st.previousResponseId ::
            turns.map (fun t => some t.2.response_id)).take turns.length := by
  induction turns with
  | nil => intro st; rfl
  | cons hd tl ih =>
    intro st
    obtain ⟨m, r⟩ := hd
    simp only [chatRequests, List.map_cons, List.length_cons,
      List.take_succ_cons]
    rw [ih (sendChatStep st m (Except.ok r))]
    simp [chatRequest, sendChatStep]

/-- C7: in any chat turn sequence whose boundary calls succeed, started
from a fresh session (`previousResponseId = null`), the outbound request
of turn N+1 carries exactly the `response_id` returned by the successful
response to turn N, and the first turn's request carries the absent
token. -/
theorem c7_continuation_threading (st : AppState)
    (turns : List (String × ChatResponse))
    (h : st.previousResponseId = none) :
    (chatRequests st turns).map ChatRequest.previous_response_id
      = (none :: turns.map (fun t => some t.2.response_id)).take
          turns.length := by
  rw [chatRequests_tokens turns st, h]

/-- C7 witness: two concrete successful turns; the emitted request tokens
are `[none, some "r1"]`. -/
def c7w : AppState :=
  { baseState with
    step := 5
    deployedAgent := some ⟨"bot-1", "id-123", 1, []⟩
    paramValues := [("purpose", "follow-up")] }

def c7turns : List (String × ChatResponse) :=
  [("hello", ⟨"r1", "hi there", []⟩), ("more", ⟨"r2", "sure", ["toolA"]⟩)]

theorem c7_continuation_threading_witness :
    (chatRequests c7w c7turns).map ChatRequest.previous_response_id
      = [none, some "r1"] :=
  (c7_continuation_threading c7w c7turns rfl).trans (by decide)

/-! ## C6 — confirmChatParams -/

/-- The summary-line list is empty exactly when every prompt param's
display value (stored value, else default) is the empty string. -/
theorem ctxLines_isEmpty (st : AppState) (params : List PromptParam) :
    (ctxLines st params).isEmpty
      = params.all (fun p => chatResolvedVal st p = "") := by
  induction params with
  | nil => rfl
  | cons hd tl ih =>
    by_cases h : chatResolvedVal st hd = ""
    · simpa [ctxLines, h] using ih
    · simp [ctxLines, List.filterMap_cons, h, List.all_cons]

/-- C6 fixture for the counterexample: one optional prompt param whose
stored value and default are both empty — every resolved value is empty. -/
def c6x : AppState :=
  { baseState with
    step := 5
    promptParams := [⟨"purpose", "", "string", [], "", false, "", ""⟩]
    paramValues := [("purpose", "")] }

/-- C6 counterexample: with a non-empty PromptParam list whose resolved
values are all empty, `confirmChatParams` succeeds (the session becomes
confirmed) but appends no context message at all — not exactly one. -/
theorem c6_counterexample :
    getActivePromptParams c6x
      = [⟨"purpose", "", "string", [], "", false, "", ""⟩] ∧
    chatResolvedVal c6x ⟨"purpose", "", "string", [], "", false, "", ""⟩
      = "" ∧
    (confirmChatParams c6x).chatParamsConfirmed = true ∧
    (confirmChatParams c6x).chatHistory = [] := by
  decide

/-- C6 amended: `confirmChatParams` is refused — the whole state is
unchanged, so the session stays unconfirmed and the history untouched —
while some required PromptParam's stored value is absent or blank after
trimming; otherwise it succeeds: the session becomes confirmed and
exactly one context-role message summarizing the key/label/value set is
appended when at least one parameter's display value (stored value, else
its default) is non-empty, and no message is appended when all display
values are empty. -/
theorem c6_confirm (st : AppState) :
    ((getActivePromptParams st).any
        (fun p => p.required &&
          jsTrim ((lookupA st.paramValues p.key).getD "") = "") = true →
      confirmChatParams st = st) ∧
    ((getActivePromptParams st).any
        (fun p => p.required &&
          jsTrim ((lookupA st.paramValues p.key).getD "") = "") = false →
      (confirmChatParams st).chatParamsConfirmed = true ∧
      (confirmChatParams st).chatHistory
        = st.chatHistory ++
            (if (getActivePromptParams st).all
                (fun p => chatResolvedVal st p = "") then []
             else [ctxMessage st (getActivePromptParams st)])) := by
  constructor
  · intro h
    simp [confirmChatParams, h]
  · intro h
    have hlines := ctxLines_isEmpty st (getActivePromptParams st)
    by_cases hall : (getActivePromptParams st).all
        (fun p => chatResolvedVal st p = "") = true
    · constructor <;> simp [confirmChatParams, h, hlines, hall]
    · constructor <;> simp [confirmChatParams, h, hlines, hall]

/-- C6 witness fixture: Scenario D — required param `purpose` set to
`follow-up`. -/
def c6w : AppState :=
  { baseState with
    step := 5
    promptParams := [⟨"purpose", "Purpose", "string", [], "", true, "", ""⟩]
    paramValues := [("purpose", "follow-up")] }

theorem c6_confirm_witness :
    (confirmChatParams c6w).chatParamsConfirmed = true ∧
    (confirmChatParams c6w).chatHistory
      = c6w.chatHistory ++ [ctxMessage c6w (getActivePromptParams c6w)] := by
  have h := (c6_confirm c6w).2 (by decide)
  exact ⟨h.1, h.2.trans (by decide)⟩

/-! ## C1 — deploy payload key set -/

/-- A key survives one fill step unchanged unless it is exactly the
schema key being processed. -/
theorem lookupA_fillStep_ne (ov : List (String × Value))
    (kf : String × ParamField) (k : String) (h : kf.1 ≠ k) :
    lookupA (fillStep ov kf) k = lookupA ov k := by
  unfold fillStep
  cases hov : lookupA ov kf.1 with
  | none =>
    cases hdef : kf.2.default with
    | none => rfl
    | some d => exact lookupA_setKey_ne ov kf.1 k d h
  | some v => rfl

/-- Characterization of the default-merged override map of `renderDeploy`:
a key resolves to its stored override when present, else to the declared
default when defined, else it is absent from the emitted map. -/
theorem lookupA_fillDefaults (schema : List (String × ParamField)) :
    ∀ (ov : List (String × Value)) (k : String),
      (schema.map Prod.fst).Nodup →
      lookupA (fillDefaults ov schema) k
        = (lookupA ov k).or
            ((lookupA schema k).bind ParamField.default) := by
  induction schema with
  | nil =>
    intro ov k _
    simp [fillDefaults, lookupA, Option.or]
    cases lookupA ov k <;> rfl
  | cons hd tl ih =>
    intro ov k hnd
    obtain ⟨k0, f0⟩ := hd
    simp only [List.map_cons, List.nodup_cons] at hnd
    obtain ⟨hk0, hnd'⟩ := hnd
    have step : fillDefaults ov ((k0, f0) :: tl)
        = fillDefaults (fillStep ov (k0, f0)) tl := by
      simp [fillDefaults]
    rw [step, ih (fillStep ov (k0, f0)) k hnd']
    by_cases hk : k0 = k
    · subst hk
      have htl : lookupA tl k0 = none :=
        lookupA_eq_none_of_not_mem tl k0 hk0
      rw [htl]
      cases hov : lookupA ov k0 with
      | some v => simp [fillStep, hov, lookupA]
      | none =>
        cases hdef : f0.default with
        | some d =>
          simp [fillStep, hov, hdef, lookupA_setKey_self, lookupA]
        | none => simp [fillStep, hov, hdef, lookupA]
    · have h1 : lookupA (fillStep ov (k0, f0)) k = lookupA ov k :=
        lookupA_fillStep_ne ov (k0, f0) k hk
      rw [h1]
      simp [lookupA, hk]

/-- C1 fixture: an active tool whose only declared deploy field `k` has no
default (`undefined`) and carries no override. -/
def c1detail : ToolDetail :=
  ⟨"Tool T", [("k", mkField "K" "string" none false [] none)], []⟩

def c1x : AppState :=
  { baseState with
    toolDetails := [("t", c1detail)]
    selected := [("t", SelEntry.empty)]
    agentName := "bot-1"
    instructions := "You are helpful" }

/-- C1 counterexample: the schema declares the deploy key `k`, but the
assembled payload's deploy map for the active tool is empty — the key is
omitted instead of being emitted with the Empty value. -/
theorem c1_counterexample :
    c1detail.deploy_params.map Prod.fst = ["k"] ∧
    (buildDeployPayload c1x).tools.map ToolPayload.deploy_params
      = [[]] := by
  decide

/-- C1 amended: for every active tool with a cached schema (with unique
keys per section), the assembled payload's per-section maps bind a key
exactly when it has a stored override or a declared defined default,
resolved by precedence override-then-default; declared fields with neither
an override nor a defined default are omitted (the Empty fallback never
fires), and stored override keys pass through even when undeclared. -/
theorem c1_payload_key_characterization (st : AppState) (toolId : String)
    (entry : SelEntry) (detail : ToolDetail) (key : String)
    (hdet : lookupA st.toolDetails toolId = some detail)
    (hd : (detail.deploy_params.map Prod.fst).Nodup)
    (hr : (detail.runtime_params.map Prod.fst).Nodup) :
    (buildDeployPayload st).tools = st.selected.map (toolPayload st) ∧
    lookupA (toolPayload st (toolId, entry)).deploy_params key
      = (lookupA entry.deploy_params key).or
          ((lookupA detail.deploy_params key).bind ParamField.default) ∧
    lookupA (toolPayload st (toolId, entry)).runtime_params key
      = (lookupA entry.runtime_params key).or
          ((lookupA detail.runtime_params key).bind ParamField.default) := by
  refine ⟨rfl, ?_, ?_⟩
  · simp only [toolPayload, hdet]
    exact lookupA_fillDefaults detail.deploy_params entry.deploy_params key hd
  · simp only [toolPayload, hdet]
    exact lookupA_fillDefaults detail.runtime_params entry.runtime_params
      key hr

/-- C1 witness fixture: the Scenario-A weather tool — `auth_type` has
default `anonymous` and no override, `project_connection_id` has default
`""` and no override, `spec_url` is overridden. -/
def c1wdetail : ToolDetail :=
  ⟨"Weather",
    [("spec_url", mkField "OpenAPI Spec URL" "string"
        (some (Value.scalar "https://old.example/openapi.json")) true [] none),
      ("auth_type", mkField "Authentication" "select"
        (some (Value.scalar "anonymous")) true
        ["anonymous", "project_connection", "managed_identity"] none),
      ("project_connection_id", mkField "Project Connection"
        "connection_picker" (some (Value.scalar "")) false []
        (some ("auth_type", "project_connection")))], []⟩

def c1w : AppState :=
  { baseState with
    toolDetails := [("weather", c1wdetail)]
    selected := [("weather",
      ⟨[("spec_url", Value.scalar "https://new.example/openapi.json")], []⟩)]
    agentName := "bot-1"
    instructions := "You are helpful" }

theorem c1_payload_key_characterization_witness :
    lookupA (toolPayload c1w ("weather",
        ⟨[("spec_url", Value.scalar "https://new.example/openapi.json")],
          []⟩)).deploy_params "auth_type"
      = (lookupA
          (⟨[("spec_url", Value.scalar "https://new.example/openapi.json")],
            []⟩ : SelEntry).deploy_params "auth_type").or
          ((lookupA c1wdetail.deploy_params "auth_type").bind
            ParamField.default) :=
  (c1_payload_key_characterization c1w "weather"
    ⟨[("spec_url", Value.scalar "https://new.example/openapi.json")], []⟩
    c1wdetail "auth_type" (by decide) (by decide) (by decide)).2.1
